import Mathlib

/-!
Verification of the data-drift reporting Lambda
(`src/DataDriftReportLambdaversion6/app.py`).

The handler is embedded shallowly: every external collaborator (S3 get/put,
the evidently report engine, SES, the uuid generator) is a field of an `Env`
record, and the handler threads an explicit `Effects` log of the external
calls it performs (dataset loads, object puts, emails sent).  Python
exceptions are modelled by `Except`: an uncaught exception aborts the
handler, keeping the side effects performed so far.
-/

namespace DriftPipeline

/-- One record of the triggering S3 event: `record.s3.bucket.name` and
`record.s3.object.key` in the Python handler. -/
structure S3Record where
  bucket : String
  key : String
deriving DecidableEq, Repr

/-- The triggering event: `event.Records` in the Python handler. -/
structure Event where
  records : List S3Record
deriving DecidableEq, Repr

/-- Failure of `load_data_from_s3`: `s3_client.get_object` raising (missing
object) or `pd.read_csv` raising (malformed content). -/
inductive LoadError where
  | notFound (key : String)
  | parseError (msg : String)
deriving DecidableEq, Repr

/-- Failure of `s3_client.put_object` in `save_report_to_s3`. -/
inductive StoreError where
  | storeUnavailable (msg : String)
deriving DecidableEq, Repr

/-- Failure of `ses_client.send_raw_email` in `send_email_with_attachment`. -/
structure DeliveryError where
  msg : String
deriving DecidableEq, Repr

/-- The MIME message assembled by `send_email_with_attachment`: from, to,
subject, plain-text body, the attachment bytes and the attachment's
`Content-Disposition` filename. -/
structure EmailMsg where
  fromAddr : String
  toAddr : String
  subject : String
  body : String
  attachment : List UInt8
  filename : String
deriving DecidableEq, Repr

/-- The log of external calls performed by one handler invocation:
dataset loads attempted (bucket, key), objects successfully written to S3
(bucket, key, body) and emails successfully handed to SES. -/
structure Effects where
  loads : List (String × String)
  puts : List (String × String × String)
  emails : List EmailMsg
deriving DecidableEq, Repr

/-- The empty effect log at the start of an invocation. -/
def Effects.empty : Effects := ⟨[], [], []⟩

/-- The external collaborators of the handler, with the dataframe type `DF`
(what `pd.read_csv` yields) and the report type `RPT` (the evidently
`Report` object) abstract: the handler never inspects either.
`load` models `get_object` + `read_csv`; `analyze` models
`Report(metrics=[DataDriftPreset()]).run(...)`; `getHtml` models
`report.get_html()`; `put` models `put_object`; `sendEmail` models
`send_raw_email`; `uuidHex` models `uuid.uuid4().hex`. -/
structure Env (DF RPT : Type) where
  load : String → String → Except LoadError DF
  analyze : DF → DF → Except String RPT
  getHtml : RPT → String
  put : String → String → String → Except StoreError Unit
  sendEmail : EmailMsg → Except DeliveryError String
  uuidHex : String

/-- The hard-coded current-data bucket (module constant `CUR_DATA_BUCKET`). -/
def CUR_DATA_BUCKET : String := "dq6-cur-data-s3"

/-- The hard-coded reference-data bucket (module constant `REF_DATA_BUCKET`). -/
def REF_DATA_BUCKET : String := "dq6-ref-data-s3"

/-- The hard-coded reports bucket (module constant `REPORTS_BUCKET`). -/
def REPORTS_BUCKET : String := "dq6-reports-s3"

/-- `str.encode('utf-8')` on the HTML report. -/
def utf8Encode (s : String) : List UInt8 := s.toUTF8.toList

/-- The stage at which an uncaught Python exception aborted the handler,
together with the exception. -/
inductive RunError where
  | loading (e : LoadError)
  | analyzing (e : String)
  | persisting (e : StoreError)
  | notifying (e : DeliveryError)
deriving DecidableEq, Repr

/-- The dictionary returned by `lambda_handler`: either the success body
(message, `report_key`, `email_response`) or the fall-through no-op body;
both carry `statusCode` 200 in the Python code. -/
inductive Response where
  | success (message reportKey emailResponse : String)
  | noop (message : String)
deriving DecidableEq, Repr

/-- `load_data_from_s3(bucket, key)`: performs the S3 get (logged as a load
attempt) and parses the CSV; either step may raise. -/
def load_data_from_s3 (env : Env DF RPT) (bucket key : String) (eff : Effects) :
    Except LoadError DF × Effects :=
  (env.load bucket key, { eff with loads := eff.loads ++ [(bucket, key)] })

/-- `generate_drift_report(reference_data, current_data)`: runs the evidently
report; treated as an external call that may raise. -/
def generate_drift_report (env : Env DF RPT) (reference_data current_data : DF) :
    Except String RPT :=
  env.analyze reference_data current_data

/-- `save_report_to_s3(report, bucket, key)`: renders the HTML, writes it to
S3, and returns the very HTML payload it stored. -/
def save_report_to_s3 (env : Env DF RPT) (report : RPT) (bucket key : String)
    (eff : Effects) : Except StoreError String × Effects :=
  let html_report := env.getHtml report
  match env.put bucket key html_report with
  | .error e => (.error e, eff)
  | .ok _ => (.ok html_report, { eff with puts := eff.puts ++ [(bucket, key, html_report)] })

/-- `send_email_with_attachment(to_email, subject, body, attachment,
attachment_name)`: assembles the MIME message with the hard-coded `From`
address and sends it through SES. -/
def send_email_with_attachment (env : Env DF RPT) (to_email subject body : String)
    (attachment : List UInt8) (attachment_name : String) (eff : Effects) :
    Except DeliveryError String × Effects :=
  let msg : EmailMsg :=
    { fromAddr := "sagarpatiler@gmail.com", toAddr := to_email, subject := subject,
      body := body, attachment := attachment, filename := attachment_name }
  match env.sendEmail msg with
  | .error e => (.error e, eff)
  | .ok response => (.ok response, { eff with emails := eff.emails ++ [msg] })

/-- The `for record in event.Records` loop body of `lambda_handler`: on the
first record whose bucket equals `CUR_DATA_BUCKET` it loads both datasets,
generates the report, saves it under a fresh uuid-based key, emails it and
RETURNS; non-matching records are skipped; if no record matches, the
fall-through no-op response is returned. -/
def processRecords (env : Env DF RPT) :
    List S3Record → Effects → Except RunError Response × Effects
  | [], eff => (.ok (.noop "No files processed from the dq6-cur-data-s3 bucket."), eff)
  | record :: rest, eff =>
    let bucket_name := record.bucket
    let object_key := record.key
    if bucket_name = CUR_DATA_BUCKET then
      let ref_data_key := "ref.csv"
      match load_data_from_s3 env REF_DATA_BUCKET ref_data_key eff with
      | (.error e, eff) => (.error (.loading e), eff)
      | (.ok reference_data, eff) =>
        match load_data_from_s3 env bucket_name object_key eff with
        | (.error e, eff) => (.error (.loading e), eff)
        | (.ok current_data, eff) =>
          match generate_drift_report env reference_data current_data with
          | .error e => (.error (.analyzing e), eff)
          | .ok report =>
            let report_key := "data_drift_report_" ++ env.uuidHex ++ ".html"
            match save_report_to_s3 env report REPORTS_BUCKET report_key eff with
            | (.error e, eff) => (.error (.persisting e), eff)
            | (.ok html_report, eff) =>
              match send_email_with_attachment env "sagarpatiler@gmail.com"
                  "Data Quality Report has been generated"
                  "Please find the attached Data Quality Report."
                  (utf8Encode html_report) "data_quality_report.html" eff with
              | (.error e, eff) => (.error (.notifying e), eff)
              | (.ok email_response, eff) =>
                (.ok (.success
                  "Data drift detected, report generated, saved to S3, and emailed successfully"
                  report_key email_response), eff)
    else
      processRecords env rest eff

/-- `lambda_handler(event, context)`: processes the event's records starting
from an empty effect log. -/
def lambda_handler (env : Env DF RPT) (event : Event) :
    Except RunError Response × Effects :=
  processRecords env event.records Effects.empty

namespace Analyzer

/-- Modelled from the spec: the Drift Analyzer itself lives in the
third-party evidently library (`DataDriftPreset`), whose code is not part of
this repository; §3 and §4.1 of the spec describe it.  A column's type
category: numeric, categorical, or datetime (datetime is treated as
ordinal/numeric after normalization). -/
inductive ColType where
  | numeric
  | categorical
  | datetime
deriving DecidableEq, Repr, BEq

/-- Modelled from the spec: a named, typed column — an ordered sequence of
nullable values.  Numeric and normalized datetime values are integers;
categorical values are category codes. -/
structure Column where
  name : String
  ctype : ColType
  values : List (Option Int)
deriving DecidableEq, Repr

/-- Modelled from the spec: a dataset is an ordered sequence of named
columns. -/
structure Dataset where
  cols : List Column
deriving DecidableEq, Repr

/-- Modelled from the spec: the analyzer's configuration — drift thresholds
per column type and the aggregate share-of-drifted-columns threshold, all
externally supplied. -/
structure Config where
  numericThreshold : Rat
  categoricalThreshold : Rat
  datetimeThreshold : Rat
  shareThreshold : Rat
deriving DecidableEq, Repr

/-- Modelled from the spec: the result recorded for one column — name,
inferred type category, the statistical test chosen, the statistic (absent
when the column is degenerate and drift is undetermined), the threshold
applied, and the boolean drift verdict. -/
structure ColumnDriftResult where
  name : String
  ctype : ColType
  test : String
  statistic : Option Rat
  threshold : Rat
  drifted : Bool
deriving DecidableEq, Repr

/-- Modelled from the spec: the analyzer's structured result — the ordered
per-column results, the drifted-column count, the share score, the
deterministic aggregate verdict, and the generation timestamp. -/
structure DriftReport where
  results : List ColumnDriftResult
  driftedCount : Nat
  shareScore : Rat
  overallDrifted : Bool
  timestamp : Nat
deriving DecidableEq, Repr

/-- Modelled from the spec: the analyzer's only failure — the two schemas
are incompatible, with the offending columns identified. -/
inductive AnalyzeError where
  | schemaMismatch (columns : List String)
deriving DecidableEq, Repr

/-- The schema of a dataset: its (name, type) pairs in order. -/
def Dataset.schema (d : Dataset) : List (String × ColType) :=
  d.cols.map fun c => (c.name, c.ctype)

/-- Modelled from the spec: two datasets are comparable when they carry the
same column names with the same type categories. -/
def Dataset.comparableWith (r c : Dataset) : Bool :=
  r.schema.all (fun p => c.schema.contains p) &&
  c.schema.all (fun p => r.schema.contains p)

/-- Modelled from the spec: the offending columns reported on a schema
mismatch — every (name, type) present on one side but not the other. -/
def offendingColumns (r c : Dataset) : List String :=
  (r.schema.filter fun p => !c.schema.contains p).map Prod.fst ++
  (c.schema.filter fun p => !r.schema.contains p).map Prod.fst

/-- The non-null values of a column. -/
def nonNull (vs : List (Option Int)) : List Int := vs.filterMap id

/-- The mean of a non-empty list of integer values, as a rational. -/
def mean (xs : List Int) : Rat := (xs.sum : Rat) / (xs.length : Rat)

/-- Relative frequency of the value `v` in `xs`. -/
def freq (xs : List Int) (v : Int) : Rat :=
  ((xs.count v : Nat) : Rat) / ((xs.length : Nat) : Rat)

/-- Total-variation distance between the frequency tables of two non-empty
value lists: half the sum of absolute frequency differences over the
categories occurring on either side. -/
def tvd (r c : List Int) : Rat :=
  (((r ++ c).dedup).map fun v => |freq r v - freq c v|).sum / 2

/-- Modelled from the spec: the drift threshold applied to a column of the
given type, taken from the configuration. -/
def thresholdFor (cfg : Config) : ColType → Rat
  | .numeric => cfg.numericThreshold
  | .categorical => cfg.categoricalThreshold
  | .datetime => cfg.datetimeThreshold

/-- Modelled from the spec: the statistical test selected for a column
type — a distribution-distance test for numeric and normalized datetime
columns, a frequency-table comparison for categorical columns. -/
def testFor : ColType → String
  | .numeric => "mean-distance"
  | .categorical => "total-variation"
  | .datetime => "mean-distance"

/-- Modelled from the spec: the drift result for one matched column pair.
A degenerate pair (either side has no non-null values, which covers empty
datasets and all-null columns) yields the documented default: no statistic
and `drifted = false` (undetermined), never a division by zero.  Otherwise
the type-selected statistic is compared against the configured threshold. -/
def analyzeColumn (cfg : Config) (rcol ccol : Column) : ColumnDriftResult :=
  let r := nonNull rcol.values
  let c := nonNull ccol.values
  let th := thresholdFor cfg rcol.ctype
  if r = [] ∨ c = [] then
    { name := rcol.name, ctype := rcol.ctype, test := testFor rcol.ctype,
      statistic := none, threshold := th, drifted := false }
  else
    let stat : Rat :=
      match rcol.ctype with
      | .categorical => tvd r c
      | _ => |mean r - mean c|
    { name := rcol.name, ctype := rcol.ctype, test := testFor rcol.ctype,
      statistic := some stat, threshold := th, drifted := decide (th < stat) }

/-- Modelled from the spec: the per-column pass of `analyze`.  If the
schemas are not comparable it fails with `schemaMismatch` naming the
offending columns; otherwise it produces exactly one result per reference
column, in order, each matched by name against the current dataset — no
column is dropped or coerced. -/
def analyzeCore (cfg : Config) (r c : Dataset) :
    Except AnalyzeError (List ColumnDriftResult) :=
  if r.comparableWith c then
    .ok (r.cols.map fun rcol =>
      match c.cols.find? (fun ccol => ccol.name == rcol.name) with
      | some ccol => analyzeColumn cfg rcol ccol
      | none => analyzeColumn cfg rcol rcol)
  else
    .error (.schemaMismatch (offendingColumns r c))

/-- Modelled from the spec: `analyze(reference, current, config)`.  The
aggregate verdict is derived deterministically from the per-column booleans
and the configured share threshold; the share of an empty column list is
defined as 0; the timestamp is supplied by the environment and stamped onto
the report without influencing any other field. -/
def analyze (cfg : Config) (r c : Dataset) (now : Nat) :
    Except AnalyzeError DriftReport :=
  (analyzeCore cfg r c).map fun results =>
    let driftedCount : Nat := (results.filter fun res => res.drifted).length
    let share : Rat :=
      if results.length = 0 then 0
      else (driftedCount : Rat) / ((results.length : Nat) : Rat)
    { results := results, driftedCount := driftedCount, shareScore := share,
      overallDrifted := decide (cfg.shareThreshold < share), timestamp := now }

/-- The timestamp-free contents of a report, for the determinism claim. -/
def reportContent (rep : DriftReport) :
    List ColumnDriftResult × Nat × Rat × Bool :=
  (rep.results, rep.driftedCount, rep.shareScore, rep.overallDrifted)

end Analyzer

/-! Concrete fixtures used to instantiate the theorems below on closed
inputs.  `String` stands in for both the dataframe type and the report
type, which the handler never inspects. -/

/-- An environment in which every external call succeeds. -/
def envOK : Env String String where
  load := fun bucket key => .ok (bucket ++ "/" ++ key)
  analyze := fun r c => .ok (r ++ "|" ++ c)
  getHtml := fun rpt => "<html>" ++ rpt ++ "</html>"
  put := fun _ _ _ => .ok ()
  sendEmail := fun _ => .ok "ses-message-id"
  uuidHex := "cafe"

/-- An environment identical to `envOK` except that SES rejects every
message. -/
def envBadMail : Env String String :=
  { envOK with sendEmail := fun _ => .error ⟨"SES unavailable"⟩ }

/-- An environment identical to `envOK` except that every S3 get fails with
a missing object. -/
def envBadLoad : Env String String :=
  { envOK with load := fun _ key => .error (.notFound key) }

/-- A second fully succeeding environment, differing from `envOK` in every
externally supplied value. -/
def envAlt : Env String String where
  load := fun _ key => .ok key
  analyze := fun _ _ => .ok "alt-report"
  getHtml := fun _ => "ALT"
  put := fun _ _ _ => .ok ()
  sendEmail := fun _ => .ok "alt-id"
  uuidHex := "beef"

/-- An upload record in the expected current-data bucket. -/
def recA : S3Record := ⟨"dq6-cur-data-s3", "a.csv"⟩

/-- A second upload record in the expected current-data bucket. -/
def recB : S3Record := ⟨"dq6-cur-data-s3", "b.csv"⟩

/-- A record from an unexpected bucket. -/
def recOther : S3Record := ⟨"some-other-bucket", "x.csv"⟩

/-- A batch with a single matching record. -/
def evOne : Event := ⟨[recA]⟩

/-- A batch with two matching records. -/
def evTwo : Event := ⟨[recA, recB]⟩

/-- A batch with no matching record. -/
def evNone : Event := ⟨[recOther]⟩

/-- A small analyzer configuration for the concrete instances. -/
def cfg0 : Analyzer.Config := ⟨1/10, 1/10, 1/10, 0⟩

/-- A one-column numeric dataset named `a`. -/
def dsA : Analyzer.Dataset := ⟨[⟨"a", .numeric, [some 1, some 2]⟩]⟩

/-- A one-column numeric dataset named `b`, not comparable with `dsA`. -/
def dsB : Analyzer.Dataset := ⟨[⟨"b", .numeric, [some 1, some 2]⟩]⟩

/-- A dataset whose only column is all-null (a degenerate input). -/
def dsNull : Analyzer.Dataset := ⟨[⟨"a", .numeric, [none, none]⟩]⟩

/-- The all-null column of `dsNull`. -/
def colNull : Analyzer.Column := ⟨"a", .numeric, [none, none]⟩

/-! Helper lemmas shared by the claim theorems. -/

/-- Records whose bucket is not `CUR_DATA_BUCKET` are skipped without any
external call or change to the effect log. -/
theorem processRecords_skip (env : Env DF RPT) :
    ∀ (pre rest : List S3Record) (eff : Effects),
      (∀ x ∈ pre, x.bucket ≠ CUR_DATA_BUCKET) →
      processRecords env (pre ++ rest) eff = processRecords env rest eff := by
  intro pre
  induction pre with
  | nil => intro rest eff _; rfl
  | cons a pre ih =>
    intro rest eff h
    have ha : a.bucket ≠ CUR_DATA_BUCKET := h a (List.mem_cons_self a pre)
    have hstep : processRecords env ((a :: pre) ++ rest) eff =
        processRecords env (pre ++ rest) eff := by
      simp [processRecords, ha]
    rw [hstep, ih rest eff fun x hx => h x (List.mem_cons_of_mem a hx)]

/-- A matching head record on which every stage succeeds: the handler
returns the success response for that record and appends exactly the two
loads, the one put and the one email of that run. -/
theorem processRecords_success_run (env : Env DF RPT) (r : S3Record)
    (rest : List S3Record) (eff : Effects) (dref dcur : DF) (rpt : RPT)
    (resp : String)
    (hr : r.bucket = CUR_DATA_BUCKET)
    (h1 : env.load REF_DATA_BUCKET "ref.csv" = .ok dref)
    (h2 : env.load CUR_DATA_BUCKET r.key = .ok dcur)
    (h3 : env.analyze dref dcur = .ok rpt)
    (h4 : env.put REPORTS_BUCKET ("data_drift_report_" ++ env.uuidHex ++ ".html")
            (env.getHtml rpt) = .ok ())
    (h5 : env.sendEmail
            { fromAddr := "sagarpatiler@gmail.com", toAddr := "sagarpatiler@gmail.com",
              subject := "Data Quality Report has been generated",
              body := "Please find the attached Data Quality Report.",
              attachment := utf8Encode (env.getHtml rpt),
              filename := "data_quality_report.html" } = .ok resp) :
    processRecords env (r :: rest) eff =
      (.ok (.success
          "Data drift detected, report generated, saved to S3, and emailed successfully"
          ("data_drift_report_" ++ env.uuidHex ++ ".html") resp),
        { loads := eff.loads ++ [(REF_DATA_BUCKET, "ref.csv"), (CUR_DATA_BUCKET, r.key)],
          puts := eff.puts ++
            [(REPORTS_BUCKET, "data_drift_report_" ++ env.uuidHex ++ ".html",
              env.getHtml rpt)],
          emails := eff.emails ++
            [{ fromAddr := "sagarpatiler@gmail.com", toAddr := "sagarpatiler@gmail.com",
               subject := "Data Quality Report has been generated",
               body := "Please find the attached Data Quality Report.",
               attachment := utf8Encode (env.getHtml rpt),
               filename := "data_quality_report.html" }] }) := by
  simp [processRecords, hr, load_data_from_s3, generate_drift_report,
    save_report_to_s3, send_email_with_attachment, h1, h2, h3, h4, h5]

/-- A matching head record on which every stage up to persisting succeeds
but delivery fails: the handler aborts with the notifying error, keeping
the stored report and sending no email. -/
theorem processRecords_notify_failure (env : Env DF RPT) (r : S3Record)
    (rest : List S3Record) (eff : Effects) (dref dcur : DF) (rpt : RPT)
    (e : DeliveryError)
    (hr : r.bucket = CUR_DATA_BUCKET)
    (h1 : env.load REF_DATA_BUCKET "ref.csv" = .ok dref)
    (h2 : env.load CUR_DATA_BUCKET r.key = .ok dcur)
    (h3 : env.analyze dref dcur = .ok rpt)
    (h4 : env.put REPORTS_BUCKET ("data_drift_report_" ++ env.uuidHex ++ ".html")
            (env.getHtml rpt) = .ok ())
    (h5 : env.sendEmail
            { fromAddr := "sagarpatiler@gmail.com", toAddr := "sagarpatiler@gmail.com",
              subject := "Data Quality Report has been generated",
              body := "Please find the attached Data Quality Report.",
              attachment := utf8Encode (env.getHtml rpt),
              filename := "data_quality_report.html" } = .error e) :
    processRecords env (r :: rest) eff =
      (.error (.notifying e),
        { loads := eff.loads ++ [(REF_DATA_BUCKET, "ref.csv"), (CUR_DATA_BUCKET, r.key)],
          puts := eff.puts ++
            [(REPORTS_BUCKET, "data_drift_report_" ++ env.uuidHex ++ ".html",
              env.getHtml rpt)],
          emails := eff.emails }) := by
  simp [processRecords, hr, load_data_from_s3, generate_drift_report,
    save_report_to_s3, send_email_with_attachment, h1, h2, h3, h4, h5]

/-- When two schemas are not comparable, the list of offending columns is
never empty: some (name, type) pair is missing on one of the two sides. -/
theorem offendingColumns_ne_nil (r c : Analyzer.Dataset)
    (h : r.comparableWith c = false) :
    Analyzer.offendingColumns r c ≠ [] := by
  intro hnil
  unfold Analyzer.offendingColumns at hnil
  rw [List.append_eq_nil, List.map_eq_nil_iff, List.map_eq_nil_iff,
    List.filter_eq_nil_iff, List.filter_eq_nil_iff] at hnil
  unfold Analyzer.Dataset.comparableWith at h
  rw [Bool.and_eq_false_iff, List.all_eq_false, List.all_eq_false] at h
  rcases h with ⟨p, hp, hnp⟩ | ⟨p, hp, hnp⟩
  · exact (hnil.1 p hp) (by simpa using hnp)
  · exact (hnil.2 p hp) (by simpa using hnp)

/-- The analyzer's result for a column pair keeps the reference column's
name. -/
theorem analyzeColumn_name (cfg : Analyzer.Config)
    (rcol ccol : Analyzer.Column) :
    (Analyzer.analyzeColumn cfg rcol ccol).name = rcol.name := by
  simp only [Analyzer.analyzeColumn]
  split <;> rfl

/-- The analyzer's result for a column pair keeps the reference column's
type category. -/
theorem analyzeColumn_ctype (cfg : Analyzer.Config)
    (rcol ccol : Analyzer.Column) :
    (Analyzer.analyzeColumn cfg rcol ccol).ctype = rcol.ctype := by
  simp only [Analyzer.analyzeColumn]
  split <;> rfl

/-! The claim theorems. -/

/-- C5: for a batch in which no record's bucket matches the configured
current-data bucket, the handler returns the fall-through no-op response
and performs no external call at all: no dataset load, no put, no email. -/
theorem c5_nonmatching_is_noop (env : Env DF RPT) (event : Event)
    (h : ∀ r ∈ event.records, r.bucket ≠ CUR_DATA_BUCKET) :
    lambda_handler env event =
      (.ok (.noop "No files processed from the dq6-cur-data-s3 bucket."),
        Effects.empty) := by
  unfold lambda_handler
  have hskip := processRecords_skip env event.records [] Effects.empty h
  rw [List.append_nil] at hskip
  rw [hskip]
  rfl

/-- Witness for C5 at a concrete non-matching batch. -/
theorem c5_nonmatching_is_noop_witness :
    (∀ r ∈ evNone.records, r.bucket ≠ CUR_DATA_BUCKET) ∧
    lambda_handler envOK evNone =
      (.ok (.noop "No files processed from the dq6-cur-data-s3 bucket."),
        Effects.empty) :=
  ⟨by decide, c5_nonmatching_is_noop envOK evNone (by decide)⟩

/-- C7: the analyzer is deterministic — two calls of `analyze` with the
same datasets and configuration yield the same report contents apart from
the timestamp, whatever the two timestamps are. -/
theorem c7_analyzer_deterministic (cfg : Analyzer.Config)
    (r c : Analyzer.Dataset) (t1 t2 : Nat) :
    (Analyzer.analyze cfg r c t1).map Analyzer.reportContent =
    (Analyzer.analyze cfg r c t2).map Analyzer.reportContent := by
  unfold Analyzer.analyze
  cases Analyzer.analyzeCore cfg r c <;> rfl

/-- C1 counterexample: a batch of two matching upload records, processed in
a fully succeeding environment, produces only one stored report and one
email, and the second record's key is never even loaded — not one report
per matching event. -/
theorem c1_batch_single_report_counterexample :
    evTwo.records.length = 2 ∧
    (lambda_handler envOK evTwo).2.puts.length = 1 ∧
    (lambda_handler envOK evTwo).2.emails.length = 1 ∧
    (lambda_handler envOK evTwo).2.loads =
      [("dq6-ref-data-s3", "ref.csv"), ("dq6-cur-data-s3", "a.csv")] := by
  refine ⟨rfl, ?_, ?_, ?_⟩ <;> decide

/-- C1 (amended): the handler returns inside the loop on the first matching
record, so a batch whose head matches behaves exactly like the
single-record batch — the remaining records, matching or not, are ignored,
and exactly one report and one email are produced. -/
theorem c1_first_match_only (env : Env DF RPT) (r : S3Record)
    (rest : List S3Record) (dref dcur : DF) (rpt : RPT) (resp : String)
    (hr : r.bucket = CUR_DATA_BUCKET)
    (h1 : env.load REF_DATA_BUCKET "ref.csv" = .ok dref)
    (h2 : env.load CUR_DATA_BUCKET r.key = .ok dcur)
    (h3 : env.analyze dref dcur = .ok rpt)
    (h4 : env.put REPORTS_BUCKET ("data_drift_report_" ++ env.uuidHex ++ ".html")
            (env.getHtml rpt) = .ok ())
    (h5 : env.sendEmail
            { fromAddr := "sagarpatiler@gmail.com", toAddr := "sagarpatiler@gmail.com",
              subject := "Data Quality Report has been generated",
              body := "Please find the attached Data Quality Report.",
              attachment := utf8Encode (env.getHtml rpt),
              filename := "data_quality_report.html" } = .ok resp) :
    lambda_handler env ⟨r :: rest⟩ = lambda_handler env ⟨[r]⟩ ∧
    (lambda_handler env ⟨r :: rest⟩).2.puts.length = 1 ∧
    (lambda_handler env ⟨r :: rest⟩).2.emails.length = 1 := by
  have hA := processRecords_success_run env r rest Effects.empty dref dcur rpt resp
    hr h1 h2 h3 h4 h5
  have hB := processRecords_success_run env r [] Effects.empty dref dcur rpt resp
    hr h1 h2 h3 h4 h5
  simp only [lambda_handler]
  rw [hA, hB]
  simp [Effects.empty]

/-- Witness for C1 (amended) at the concrete two-record batch. -/
theorem c1_first_match_only_witness :
    lambda_handler envOK evTwo = lambda_handler envOK ⟨[recA]⟩ ∧
    (lambda_handler envOK evTwo).2.puts.length = 1 ∧
    (lambda_handler envOK evTwo).2.emails.length = 1 :=
  c1_first_match_only envOK recA [recB]
    "dq6-ref-data-s3/ref.csv" "dq6-cur-data-s3/a.csv"
    "dq6-ref-data-s3/ref.csv|dq6-cur-data-s3/a.csv" "ses-message-id"
    rfl rfl rfl rfl rfl rfl

/-- C3 counterexample: persisting succeeds and SES fails, yet the handler
does not return a degraded-success result with the stored report key — the
exception propagates and the invocation ends as a notifying failure, with
the report already stored. -/
theorem c3_delivery_failure_counterexample :
    (lambda_handler envBadMail evOne).1 =
      .error (.notifying ⟨"SES unavailable"⟩) ∧
    (lambda_handler envBadMail evOne).2.puts ≠ [] ∧
    (lambda_handler envBadMail evOne).2.emails = [] :=
  ⟨rfl, by decide, rfl⟩

/-- C3 (amended): when every stage up to persisting succeeds and the
notification step fails with a `DeliveryError`, the handler treats the run
as a total failure: the uncaught exception aborts the invocation in the
notifying stage, the already persisted report stays in the reports bucket,
no email is recorded, and no success result carrying the report key is
returned to the caller. -/
theorem c3_delivery_failure_propagates (env : Env DF RPT) (r : S3Record)
    (rest : List S3Record) (dref dcur : DF) (rpt : RPT) (e : DeliveryError)
    (hr : r.bucket = CUR_DATA_BUCKET)
    (h1 : env.load REF_DATA_BUCKET "ref.csv" = .ok dref)
    (h2 : env.load CUR_DATA_BUCKET r.key = .ok dcur)
    (h3 : env.analyze dref dcur = .ok rpt)
    (h4 : env.put REPORTS_BUCKET ("data_drift_report_" ++ env.uuidHex ++ ".html")
            (env.getHtml rpt) = .ok ())
    (h5 : env.sendEmail
            { fromAddr := "sagarpatiler@gmail.com", toAddr := "sagarpatiler@gmail.com",
              subject := "Data Quality Report has been generated",
              body := "Please find the attached Data Quality Report.",
              attachment := utf8Encode (env.getHtml rpt),
              filename := "data_quality_report.html" } = .error e) :
    lambda_handler env ⟨r :: rest⟩ =
      (.error (.notifying e),
        { loads := [(REF_DATA_BUCKET, "ref.csv"), (CUR_DATA_BUCKET, r.key)],
          puts := [(REPORTS_BUCKET, "data_drift_report_" ++ env.uuidHex ++ ".html",
            env.getHtml rpt)],
          emails := [] }) := by
  have h := processRecords_notify_failure env r rest Effects.empty dref dcur rpt e
    hr h1 h2 h3 h4 h5
  simp only [lambda_handler]
  rw [h]
  rfl

/-- Witness for C3 (amended) at the concrete failing-SES environment. -/
theorem c3_delivery_failure_propagates_witness :
    lambda_handler envBadMail evOne =
      (.error (.notifying ⟨"SES unavailable"⟩),
        { loads := [(REF_DATA_BUCKET, "ref.csv"), (CUR_DATA_BUCKET, recA.key)],
          puts := [(REPORTS_BUCKET,
            "data_drift_report_" ++ envBadMail.uuidHex ++ ".html",
            envBadMail.getHtml "dq6-ref-data-s3/ref.csv|dq6-cur-data-s3/a.csv")],
          emails := [] }) :=
  c3_delivery_failure_propagates envBadMail recA []
    "dq6-ref-data-s3/ref.csv" "dq6-cur-data-s3/a.csv"
    "dq6-ref-data-s3/ref.csv|dq6-cur-data-s3/a.csv" ⟨"SES unavailable"⟩
    rfl rfl rfl rfl rfl rfl

/-- C4: if loading the reference dataset or the current dataset fails, the
handler aborts in the loading stage and no partial artifact exists —
nothing is written to the reports bucket and no email is sent. -/
theorem c4_load_failure_aborts (env : Env DF RPT) (r : S3Record)
    (rest : List S3Record)
    (hr : r.bucket = CUR_DATA_BUCKET)
    (hfail : (∃ e, env.load REF_DATA_BUCKET "ref.csv" = .error e) ∨
      (∃ dref e, env.load REF_DATA_BUCKET "ref.csv" = .ok dref ∧
        env.load CUR_DATA_BUCKET r.key = .error e)) :
    (∃ e, (lambda_handler env ⟨r :: rest⟩).1 = .error (.loading e)) ∧
    (lambda_handler env ⟨r :: rest⟩).2.puts = [] ∧
    (lambda_handler env ⟨r :: rest⟩).2.emails = [] := by
  rcases hfail with ⟨e, h1⟩ | ⟨dref, e, h1, h2⟩ <;>
    refine ⟨⟨e, ?_⟩, ?_, ?_⟩ <;>
      simp [lambda_handler, processRecords, hr, load_data_from_s3, h1, Effects.empty] <;>
      simp [h2]

/-- Witness for C4 at the concrete environment whose S3 gets all fail. -/
theorem c4_load_failure_aborts_witness :
    (∃ e, (lambda_handler envBadLoad evOne).1 = .error (.loading e)) ∧
    (lambda_handler envBadLoad evOne).2.puts = [] ∧
    (lambda_handler envBadLoad evOne).2.emails = [] :=
  c4_load_failure_aborts envBadLoad recA [] rfl
    (Or.inl ⟨.notFound "ref.csv", rfl⟩)

/-- C9: whenever a matching record is processed (after skipping any leading
non-matching records), the first dataset load is always from the fixed
reference bucket `dq6-ref-data-s3` with the fixed key `ref.csv`, whatever
the event contains; the only other load, when it happens, is the current
dataset at the event record's own bucket and key. -/
theorem c9_reference_location_fixed (env : Env DF RPT) (pre : List S3Record)
    (r : S3Record) (rest : List S3Record)
    (hpre : ∀ x ∈ pre, x.bucket ≠ CUR_DATA_BUCKET)
    (hr : r.bucket = CUR_DATA_BUCKET) :
    (lambda_handler env ⟨pre ++ r :: rest⟩).2.loads =
      [(REF_DATA_BUCKET, "ref.csv")] ∨
    (lambda_handler env ⟨pre ++ r :: rest⟩).2.loads =
      [(REF_DATA_BUCKET, "ref.csv"), (CUR_DATA_BUCKET, r.key)] := by
  simp only [lambda_handler]
  rw [processRecords_skip env pre (r :: rest) Effects.empty hpre]
  cases h1 : env.load REF_DATA_BUCKET "ref.csv" with
  | error e =>
    left
    simp [processRecords, hr, load_data_from_s3, h1, Effects.empty]
  | ok dref =>
    right
    cases h2 : env.load CUR_DATA_BUCKET r.key with
    | error e =>
      simp [processRecords, hr, load_data_from_s3, h1, h2, Effects.empty]
    | ok dcur =>
      cases h3 : env.analyze dref dcur with
      | error e =>
        simp [processRecords, hr, load_data_from_s3, generate_drift_report,
          h1, h2, h3, Effects.empty]
      | ok rpt =>
        cases h4 : env.put REPORTS_BUCKET
            ("data_drift_report_" ++ env.uuidHex ++ ".html") (env.getHtml rpt) with
        | error e =>
          simp [processRecords, hr, load_data_from_s3, generate_drift_report,
            save_report_to_s3, h1, h2, h3, h4, Effects.empty]
        | ok u =>
          cases h5 : env.sendEmail
              { fromAddr := "sagarpatiler@gmail.com", toAddr := "sagarpatiler@gmail.com",
                subject := "Data Quality Report has been generated",
                body := "Please find the attached Data Quality Report.",
                attachment := utf8Encode (env.getHtml rpt),
                filename := "data_quality_report.html" } with
          | error e =>
            simp [processRecords, hr, load_data_from_s3, generate_drift_report,
              save_report_to_s3, send_email_with_attachment, h1, h2, h3, h4, h5,
              Effects.empty]
          | ok resp =>
            simp [processRecords, hr, load_data_from_s3, generate_drift_report,
              save_report_to_s3, send_email_with_attachment, h1, h2, h3, h4, h5,
              Effects.empty]

/-- Witness for C9 at a concrete batch whose matching record follows a
non-matching one. -/
theorem c9_reference_location_fixed_witness :
    (lambda_handler envOK ⟨[recOther, recA]⟩).2.loads =
      [(REF_DATA_BUCKET, "ref.csv")] ∨
    (lambda_handler envOK ⟨[recOther, recA]⟩).2.loads =
      [(REF_DATA_BUCKET, "ref.csv"), (CUR_DATA_BUCKET, recA.key)] :=
  c9_reference_location_fixed envOK [recOther] recA [] (by decide) rfl

/-- C10: on a successful run the bytes attached to the email are exactly
the UTF-8 encoding of the HTML payload stored in the reports bucket —
`save_report_to_s3` returns the very payload it stored, and that value is
what gets attached — while the attachment carries the fixed filename
`data_quality_report.html` and the stored object the run's unique key. -/
theorem c10_attachment_equals_stored (env : Env DF RPT) (r : S3Record)
    (rest : List S3Record) (dref dcur : DF) (rpt : RPT) (resp : String)
    (hr : r.bucket = CUR_DATA_BUCKET)
    (h1 : env.load REF_DATA_BUCKET "ref.csv" = .ok dref)
    (h2 : env.load CUR_DATA_BUCKET r.key = .ok dcur)
    (h3 : env.analyze dref dcur = .ok rpt)
    (h4 : env.put REPORTS_BUCKET ("data_drift_report_" ++ env.uuidHex ++ ".html")
            (env.getHtml rpt) = .ok ())
    (h5 : env.sendEmail
            { fromAddr := "sagarpatiler@gmail.com", toAddr := "sagarpatiler@gmail.com",
              subject := "Data Quality Report has been generated",
              body := "Please find the attached Data Quality Report.",
              attachment := utf8Encode (env.getHtml rpt),
              filename := "data_quality_report.html" } = .ok resp) :
    (lambda_handler env ⟨r :: rest⟩).2.puts =
      [(REPORTS_BUCKET, "data_drift_report_" ++ env.uuidHex ++ ".html",
        env.getHtml rpt)] ∧
    (lambda_handler env ⟨r :: rest⟩).2.emails.map EmailMsg.attachment =
      [utf8Encode (env.getHtml rpt)] ∧
    (lambda_handler env ⟨r :: rest⟩).2.emails.map EmailMsg.filename =
      ["data_quality_report.html"] ∧
    (∀ eff, save_report_to_s3 env rpt REPORTS_BUCKET
        ("data_drift_report_" ++ env.uuidHex ++ ".html") eff =
      (.ok (env.getHtml rpt),
        { eff with puts := eff.puts ++ [(REPORTS_BUCKET,
            "data_drift_report_" ++ env.uuidHex ++ ".html", env.getHtml rpt)] })) ∧
    (lambda_handler env ⟨r :: rest⟩).1 =
      .ok (.success
        "Data drift detected, report generated, saved to S3, and emailed successfully"
        ("data_drift_report_" ++ env.uuidHex ++ ".html") resp) := by
  have h := processRecords_success_run env r rest Effects.empty dref dcur rpt resp
    hr h1 h2 h3 h4 h5
  simp only [lambda_handler]
  rw [h]
  refine ⟨rfl, rfl, rfl, ?_, rfl⟩
  intro eff
  simp [save_report_to_s3, h4]

/-- Witness for C10 at the concrete succeeding environment. -/
theorem c10_attachment_equals_stored_witness :
    (lambda_handler envOK evOne).2.puts =
      [(REPORTS_BUCKET, "data_drift_report_" ++ envOK.uuidHex ++ ".html",
        envOK.getHtml "dq6-ref-data-s3/ref.csv|dq6-cur-data-s3/a.csv")] ∧
    (lambda_handler envOK evOne).2.emails.map EmailMsg.attachment =
      [utf8Encode (envOK.getHtml "dq6-ref-data-s3/ref.csv|dq6-cur-data-s3/a.csv")] ∧
    (lambda_handler envOK evOne).2.emails.map EmailMsg.filename =
      ["data_quality_report.html"] ∧
    (∀ eff, save_report_to_s3 envOK
        "dq6-ref-data-s3/ref.csv|dq6-cur-data-s3/a.csv" REPORTS_BUCKET
        ("data_drift_report_" ++ envOK.uuidHex ++ ".html") eff =
      (.ok (envOK.getHtml "dq6-ref-data-s3/ref.csv|dq6-cur-data-s3/a.csv"),
        { eff with puts := eff.puts ++ [(REPORTS_BUCKET,
            "data_drift_report_" ++ envOK.uuidHex ++ ".html",
            envOK.getHtml "dq6-ref-data-s3/ref.csv|dq6-cur-data-s3/a.csv")] })) ∧
    (lambda_handler envOK evOne).1 =
      .ok (.success
        "Data drift detected, report generated, saved to S3, and emailed successfully"
        ("data_drift_report_" ++ envOK.uuidHex ++ ".html") "ses-message-id" ) :=
  c10_attachment_equals_stored envOK recA []
    "dq6-ref-data-s3/ref.csv" "dq6-cur-data-s3/a.csv"
    "dq6-ref-data-s3/ref.csv|dq6-cur-data-s3/a.csv" "ses-message-id"
    rfl rfl rfl rfl rfl rfl

/-- C6 counterexample: two environments differing in every externally
supplied value still email the same fixed recipient and store into the same
fixed reports bucket — the recipient and the bucket are hard-coded, not
configuration. -/
theorem c6_hardcoded_counterexample :
    (lambda_handler envOK evOne).2.emails.map EmailMsg.toAddr =
      ["sagarpatiler@gmail.com"] ∧
    (lambda_handler envAlt ⟨[⟨"dq6-cur-data-s3", "z.csv"⟩]⟩).2.emails.map
      EmailMsg.toAddr = ["sagarpatiler@gmail.com"] ∧
    (lambda_handler envOK evOne).2.puts.map (fun p => p.1) = ["dq6-reports-s3"] ∧
    (lambda_handler envAlt ⟨[⟨"dq6-cur-data-s3", "z.csv"⟩]⟩).2.puts.map
      (fun p => p.1) = ["dq6-reports-s3"] :=
  ⟨rfl, rfl, rfl, rfl⟩

/-- C6 (amended): the source buckets, reference key, recipient, sender,
subject, body, attachment filename and the report-key naming scheme are
hard-coded constants of the handler, not externally supplied configuration:
for every environment whatsoever, a successful run emails exactly
`sagarpatiler@gmail.com`, stores into exactly `dq6-reports-s3` under a key
of the fixed `data_drift_report_<uuid>.html` scheme, and loads the
reference from the fixed bucket and key; drift thresholds never appear in
the handler at all. -/
theorem c6_hardcoded_configuration (env : Env DF RPT) (r : S3Record)
    (rest : List S3Record) (dref dcur : DF) (rpt : RPT) (resp : String)
    (hr : r.bucket = CUR_DATA_BUCKET)
    (h1 : env.load REF_DATA_BUCKET "ref.csv" = .ok dref)
    (h2 : env.load CUR_DATA_BUCKET r.key = .ok dcur)
    (h3 : env.analyze dref dcur = .ok rpt)
    (h4 : env.put REPORTS_BUCKET ("data_drift_report_" ++ env.uuidHex ++ ".html")
            (env.getHtml rpt) = .ok ())
    (h5 : env.sendEmail
            { fromAddr := "sagarpatiler@gmail.com", toAddr := "sagarpatiler@gmail.com",
              subject := "Data Quality Report has been generated",
              body := "Please find the attached Data Quality Report.",
              attachment := utf8Encode (env.getHtml rpt),
              filename := "data_quality_report.html" } = .ok resp) :
    (lambda_handler env ⟨r :: rest⟩).2.emails.map EmailMsg.toAddr =
      ["sagarpatiler@gmail.com"] ∧
    (lambda_handler env ⟨r :: rest⟩).2.emails.map EmailMsg.fromAddr =
      ["sagarpatiler@gmail.com"] ∧
    (lambda_handler env ⟨r :: rest⟩).2.emails.map EmailMsg.subject =
      ["Data Quality Report has been generated"] ∧
    (lambda_handler env ⟨r :: rest⟩).2.emails.map EmailMsg.body =
      ["Please find the attached Data Quality Report."] ∧
    (lambda_handler env ⟨r :: rest⟩).2.emails.map EmailMsg.filename =
      ["data_quality_report.html"] ∧
    (lambda_handler env ⟨r :: rest⟩).2.puts.map (fun p => p.1) =
      ["dq6-reports-s3"] ∧
    (lambda_handler env ⟨r :: rest⟩).2.puts.map (fun p => p.2.1) =
      ["data_drift_report_" ++ env.uuidHex ++ ".html"] ∧
    (lambda_handler env ⟨r :: rest⟩).2.loads.head? =
      some ("dq6-ref-data-s3", "ref.csv") := by
  have h := processRecords_success_run env r rest Effects.empty dref dcur rpt resp
    hr h1 h2 h3 h4 h5
  simp only [lambda_handler]
  rw [h]
  exact ⟨rfl, rfl, rfl, rfl, rfl, rfl, rfl, rfl⟩

/-- Witness for C6 (amended) at the concrete succeeding environment. -/
theorem c6_hardcoded_configuration_witness :
    (lambda_handler envOK evOne).2.emails.map EmailMsg.toAddr =
      ["sagarpatiler@gmail.com"] ∧
    (lambda_handler envOK evOne).2.emails.map EmailMsg.fromAddr =
      ["sagarpatiler@gmail.com"] ∧
    (lambda_handler envOK evOne).2.emails.map EmailMsg.subject =
      ["Data Quality Report has been generated"] ∧
    (lambda_handler envOK evOne).2.emails.map EmailMsg.body =
      ["Please find the attached Data Quality Report."] ∧
    (lambda_handler envOK evOne).2.emails.map EmailMsg.filename =
      ["data_quality_report.html"] ∧
    (lambda_handler envOK evOne).2.puts.map (fun p => p.1) =
      ["dq6-reports-s3"] ∧
    (lambda_handler envOK evOne).2.puts.map (fun p => p.2.1) =
      ["data_drift_report_" ++ envOK.uuidHex ++ ".html"] ∧
    (lambda_handler envOK evOne).2.loads.head? =
      some ("dq6-ref-data-s3", "ref.csv") :=
  c6_hardcoded_configuration envOK recA []
    "dq6-ref-data-s3/ref.csv" "dq6-cur-data-s3/a.csv"
    "dq6-ref-data-s3/ref.csv|dq6-cur-data-s3/a.csv" "ses-message-id"
    rfl rfl rfl rfl rfl rfl

/-- C2: on datasets whose schemas are not comparable the analyzer fails
with a `schemaMismatch` naming the offending columns (and the list of
offenders is never empty); on success it never silently drops or coerces a
column — the report carries exactly one result per reference column, in
order, preserving each column's name and type category. -/
theorem c2_schema_mismatch_reported (cfg : Analyzer.Config)
    (r c : Analyzer.Dataset) (now : Nat) :
    (r.comparableWith c = false →
      Analyzer.analyze cfg r c now =
        .error (.schemaMismatch (Analyzer.offendingColumns r c)) ∧
      Analyzer.offendingColumns r c ≠ []) ∧
    (∀ rep, Analyzer.analyze cfg r c now = .ok rep →
      rep.results.map (fun res => (res.name, res.ctype)) = r.schema) := by
  constructor
  · intro h
    refine ⟨?_, offendingColumns_ne_nil r c h⟩
    simp [Analyzer.analyze, Analyzer.analyzeCore, Except.map, h]
  · intro rep hrep
    by_cases hcmp : r.comparableWith c = true
    · simp only [Analyzer.analyze, Analyzer.analyzeCore, if_pos hcmp,
        Except.map, Except.ok.injEq] at hrep
      subst hrep
      rw [List.map_map]
      unfold Analyzer.Dataset.schema
      refine List.map_congr_left ?_
      intro rcol _
      cases hf : c.cols.find? (fun ccol => ccol.name == rcol.name) <;>
        simp [Function.comp, analyzeColumn_name, analyzeColumn_ctype, hf]
    · rw [Bool.not_eq_true] at hcmp
      simp [Analyzer.analyze, Analyzer.analyzeCore, Except.map, hcmp] at hrep

/-- Witness for C2 at two concrete one-column datasets with different
column names. -/
theorem c2_schema_mismatch_reported_witness :
    Analyzer.Dataset.comparableWith dsA dsB = false ∧
    (Analyzer.analyze cfg0 dsA dsB 0 =
      .error (.schemaMismatch (Analyzer.offendingColumns dsA dsB)) ∧
     Analyzer.offendingColumns dsA dsB ≠ []) :=
  ⟨by decide, (c2_schema_mismatch_reported cfg0 dsA dsB 0).1 (by decide)⟩

/-- C8: on comparable datasets the analyzer always produces a report (in
particular on an empty dataset), and a degenerate column pair — either side
with no non-null values, which covers empty datasets and all-null
columns — gets the documented default: no statistic is computed (so no
division by zero can occur) and the drift verdict defaults to `false`
(undetermined). -/
theorem c8_degenerate_well_defined (cfg : Analyzer.Config)
    (r c : Analyzer.Dataset) (now : Nat) (rcol ccol : Analyzer.Column)
    (hcmp : r.comparableWith c = true)
    (hdeg : Analyzer.nonNull rcol.values = [] ∨
      Analyzer.nonNull ccol.values = []) :
    (∃ rep, Analyzer.analyze cfg r c now = .ok rep) ∧
    (Analyzer.analyzeColumn cfg rcol ccol).statistic = none ∧
    (Analyzer.analyzeColumn cfg rcol ccol).drifted = false := by
  refine ⟨?_, ?_, ?_⟩
  · unfold Analyzer.analyze Analyzer.analyzeCore
    rw [if_pos hcmp]
    exact ⟨_, rfl⟩
  · simp [Analyzer.analyzeColumn, hdeg]
  · simp [Analyzer.analyzeColumn, hdeg]

/-- Witness for C8 at a concrete dataset whose single column is all
null. -/
theorem c8_degenerate_well_defined_witness :
    (Analyzer.Dataset.comparableWith dsNull dsNull = true ∧
     Analyzer.nonNull colNull.values = []) ∧
    ((∃ rep, Analyzer.analyze cfg0 dsNull dsNull 0 = .ok rep) ∧
     (Analyzer.analyzeColumn cfg0 colNull colNull).statistic = none ∧
     (Analyzer.analyzeColumn cfg0 colNull colNull).drifted = false) :=
  ⟨⟨by decide, by decide⟩,
   c8_degenerate_well_defined cfg0 dsNull dsNull 0 colNull colNull
     (by decide) (Or.inl (by decide))⟩

end DriftPipeline
